import Mathlib

/-!
Shallow embedding of the LINE translation-relay webhook service
(`api/index.py` of `line-bot-final-test`), together with proofs of the
behavioural properties stated in its specification.

Bytes are modelled as `Nat` values below 256, 32-bit machine words as `Nat`
with explicit `% 2 ^ 32` reductions.  All definitions are executable so that
concrete runs of the embedded program can be settled by `decide` / `rfl`.
-/

set_option maxRecDepth 100000

namespace LineBot

/-! ## SHA-256 (the hash used by `hashlib.sha256` in `verify_signature`)

Standard FIPS 180-4 SHA-256 over a list of bytes.  Words are `Nat` reduced
modulo `2 ^ 32`; the bitwise complement of a reduced word `x` is
`4294967295 - x`. -/

def w32 : Nat := 4294967296

/-- Right-rotation of a 32-bit word (input assumed `< 2 ^ 32`). -/
def rotr32 (n x : Nat) : Nat := x / 2 ^ n + x % 2 ^ n * 2 ^ (32 - n)

/-- SHA-256 `Ch(e,f,g) = (e AND f) XOR ((NOT e) AND g)`. -/
def shaCh (e f g : Nat) : Nat := Nat.xor (Nat.land e f) (Nat.land (4294967295 - e) g)

/-- SHA-256 `Maj(a,b,c)`. -/
def shaMaj (a b c : Nat) : Nat :=
  Nat.xor (Nat.xor (Nat.land a b) (Nat.land a c)) (Nat.land b c)

/-- SHA-256 big sigma 0. -/
def shaS0 (x : Nat) : Nat := Nat.xor (Nat.xor (rotr32 2 x) (rotr32 13 x)) (rotr32 22 x)

/-- SHA-256 big sigma 1. -/
def shaS1 (x : Nat) : Nat := Nat.xor (Nat.xor (rotr32 6 x) (rotr32 11 x)) (rotr32 25 x)

/-- SHA-256 small sigma 0. -/
def shas0 (x : Nat) : Nat := Nat.xor (Nat.xor (rotr32 7 x) (rotr32 18 x)) (x / 2 ^ 3)

/-- SHA-256 small sigma 1. -/
def shas1 (x : Nat) : Nat := Nat.xor (Nat.xor (rotr32 17 x) (rotr32 19 x)) (x / 2 ^ 10)

/-- The 64 SHA-256 round constants (FIPS 180-4, written in decimal). -/
def shaK : List Nat :=
  [1116352408, 1899447441, 3049323471, 3921009573, 961987163, 1508970993,
   2453635748, 2870763221, 3624381080, 310598401, 607225278, 1426881987,
   1925078388, 2162078206, 2614888103, 3248222580, 3835390401, 4022224774,
   264347078, 604807628, 770255983, 1249150122, 1555081692, 1996064986,
   2554220882, 2821834349, 2952996808, 3210313671, 3336571891, 3584528711,
   113926993, 338241895, 666307205, 773529912, 1294757372, 1396182291,
   1695183700, 1986661051, 2177026350, 2456956037, 2730485921, 2820302411,
   3259730800, 3345764771, 3516065817, 3600352804, 4094571909, 275423344,
   430227734, 506948616, 659060556, 883997877, 958139571, 1322822218,
   1537002063, 1747873779, 1955562222, 2024104815, 2227730452, 2361852424,
   2428436474, 2756734187, 3204031479, 3329325298]

/-- Running state of the compression function: eight 32-bit words. -/
structure Hash8 where
  a : Nat
  b : Nat
  c : Nat
  d : Nat
  e : Nat
  f : Nat
  g : Nat
  h : Nat
deriving Repr, DecidableEq

/-- SHA-256 initial hash value (FIPS 180-4, written in decimal). -/
def shaInit : Hash8 :=
  ⟨1779033703, 3144134277, 1013904242, 2773480762,
   1359893119, 2600822924, 528734635, 1541459225⟩

/-- One round of the SHA-256 compression function. -/
def shaRound (st : Hash8) (k w : Nat) : Hash8 :=
  let t1 := (st.h + shaS1 st.e + shaCh st.e st.f st.g + k + w) % w32
  let t2 := (shaS0 st.a + shaMaj st.a st.b st.c) % w32
  ⟨(t1 + t2) % w32, st.a, st.b, st.c, (st.d + t1) % w32, st.e, st.f, st.g⟩

/-- Extend a 16-word block to the 64-word message schedule (`n` extension
steps, each appending `sigma1 W(t-2) + W(t-7) + sigma0 W(t-15) + W(t-16)`). -/
def extendSchedule : Nat → List Nat → List Nat
  | 0, acc => acc
  | n + 1, acc =>
      let len := acc.length
      let nw := (shas1 (acc.getD (len - 2) 0) + acc.getD (len - 7) 0 +
                 shas0 (acc.getD (len - 15) 0) + acc.getD (len - 16) 0) % w32
      extendSchedule n (acc ++ [nw])

/-- Compress one 16-word block into the running hash state. -/
def shaCompress (st0 : Hash8) (block : List Nat) : Hash8 :=
  let w := extendSchedule 48 block
  let st := (shaK.zip w).foldl (fun s p => shaRound s p.1 p.2) st0
  ⟨(st0.a + st.a) % w32, (st0.b + st.b) % w32, (st0.c + st.c) % w32,
   (st0.d + st.d) % w32, (st0.e + st.e) % w32, (st0.f + st.f) % w32,
   (st0.g + st.g) % w32, (st0.h + st.h) % w32⟩

/-- Fold the compression function over the padded message, 16 words at a
time.  Structural recursion keeps the definition kernel-reducible. -/
def shaBlocks (st : Hash8) : List Nat → Hash8
  | w0 :: w1 :: w2 :: w3 :: w4 :: w5 :: w6 :: w7 ::
    w8 :: w9 :: w10 :: w11 :: w12 :: w13 :: w14 :: w15 :: rest =>
      shaBlocks (shaCompress st [w0, w1, w2, w3, w4, w5, w6, w7,
                                 w8, w9, w10, w11, w12, w13, w14, w15]) rest
  | _ => st

/-- Big-endian packing of bytes into 32-bit words, four at a time. -/
def bytesToWords : List Nat → List Nat
  | b0 :: b1 :: b2 :: b3 :: rest =>
      (((b0 * 256 + b1) * 256 + b2) * 256 + b3) :: bytesToWords rest
  | _ => []

/-- SHA-256 message padding: `0x80`, zeros, then the bit length as eight
big-endian bytes, reaching a multiple of 64 bytes. -/
def shaPad (msg : List Nat) : List Nat :=
  let padLen := (64 - (msg.length + 9) % 64) % 64
  let bits := 8 * msg.length
  msg ++ 0x80 :: List.replicate padLen 0 ++
    [bits / 2 ^ 56 % 256, bits / 2 ^ 48 % 256, bits / 2 ^ 40 % 256,
     bits / 2 ^ 32 % 256, bits / 2 ^ 24 % 256, bits / 2 ^ 16 % 256,
     bits / 2 ^ 8 % 256, bits % 256]

/-- Big-endian bytes of a 32-bit word. -/
def wordBytes (x : Nat) : List Nat :=
  [x / 2 ^ 24 % 256, x / 2 ^ 16 % 256, x / 2 ^ 8 % 256, x % 256]

/-- The 32-byte digest of a final hash state. -/
def digestBytes (st : Hash8) : List Nat :=
  wordBytes st.a ++ wordBytes st.b ++ wordBytes st.c ++ wordBytes st.d ++
  wordBytes st.e ++ wordBytes st.f ++ wordBytes st.g ++ wordBytes st.h

/-- SHA-256 of a byte list. -/
def sha256 (msg : List Nat) : List Nat :=
  digestBytes (shaBlocks shaInit (bytesToWords (shaPad msg)))

/-! ## HMAC-SHA256 (`hmac.new(key, body, hashlib.sha256)`)

RFC 2104: keys longer than the 64-byte block are first hashed, keys shorter
are zero-extended to 64 bytes; then `H((K XOR opad) || H((K XOR ipad) || m))`. -/

/-- HMAC-SHA256 of `msg` under `key`, both byte lists. -/
def hmacSha256 (key msg : List Nat) : List Nat :=
  let k0 := if 64 < key.length then sha256 key else key
  let k1 := k0 ++ List.replicate (64 - k0.length) 0
  let ipad := k1.map (Nat.xor 0x36)
  let opad := k1.map (Nat.xor 0x5c)
  sha256 (opad ++ sha256 (ipad ++ msg))

/-! ## Base64 (`base64.b64encode`) -/

/-- The base64 alphabet. -/
def b64Alphabet : List Char :=
  "ABCDEFGHIJKLMNOPQRSTUVWXYZabcdefghijklmnopqrstuvwxyz0123456789+/".data

/-- The base64 character of a 6-bit value. -/
def b64Char (n : Nat) : Char := b64Alphabet.getD n 'A'

/-- Standard base64 encoding of a byte list, with `=` padding. -/
def b64Encode : List Nat → List Char
  | a :: b :: c :: rest =>
      b64Char (a / 4) :: b64Char (a % 4 * 16 + b / 16) ::
      b64Char (b % 16 * 4 + c / 64) :: b64Char (c % 64) :: b64Encode rest
  | [a, b] => [b64Char (a / 4), b64Char (a % 4 * 16 + b / 16), b64Char (b % 16 * 4), '=']
  | [a] => [b64Char (a / 4), b64Char (a % 4 * 16), '=', '=']
  | [] => []

/-! ## UTF-8 (`str.encode('utf-8')`) -/

/-- UTF-8 encoding of one scalar value, as bytes. -/
def utf8Char (c : Char) : List Nat :=
  let n := c.toNat
  if n < 0x80 then [n]
  else if n < 0x800 then [0xc0 + n / 64, 0x80 + n % 64]
  else if n < 0x10000 then [0xe0 + n / 4096, 0x80 + n / 64 % 64, 0x80 + n % 64]
  else [0xf0 + n / 262144, 0x80 + n / 4096 % 64, 0x80 + n / 64 % 64, 0x80 + n % 64]

/-- UTF-8 encoding of a string, as bytes. -/
def utf8 (s : String) : List Nat := s.data.flatMap utf8Char

/-! ## Signature computation and verification (`verify_signature`)

`verify_signature(body, signature)` in `api/index.py` returns `False` when
the configured channel secret is falsy (unset or empty) or the supplied
signature is falsy; otherwise it base64-encodes the HMAC-SHA256 digest of
the UTF-8 body under the UTF-8 secret and compares with
`hmac.compare_digest`.  `compare_digest` on equal strings returns `True`;
on unequal (or non-ASCII, where it raises and the `except` returns
`False`) arguments the outcome is `False` — observationally it is string
equality here, since the expected signature is always ASCII base64. -/

/-- The signature LINE would attach: base64 HMAC-SHA256 of `body` keyed by
`secret` (both UTF-8 encoded). -/
def signB64 (secret body : String) : String :=
  String.mk (b64Encode (hmacSha256 (utf8 secret) (utf8 body)))

/-- Embedding of `verify_signature` (the configured `CHANNEL_SECRET` is
passed explicitly; the empty string models an unset variable, matching
Python truthiness). -/
def verify_signature (secret body signature : String) : Bool :=
  if secret = "" then false
  else if signature = "" then false
  else signature == signB64 secret body

/-! ## Python string primitives used by the handler -/

/-- Python `str.isspace` characters (the exact set stripped by
`str.strip()`): ASCII whitespace, the C1/Unicode space characters and the
Unicode space separators. -/
def isPySpace (c : Char) : Bool :=
  let n := c.toNat
  (0x09 ≤ n && n ≤ 0x0d) || (0x1c ≤ n && n ≤ 0x1f) || n == 0x20 ||
  n == 0x85 || n == 0xa0 || n == 0x1680 || (0x2000 ≤ n && n ≤ 0x200a) ||
  n == 0x2028 || n == 0x2029 || n == 0x202f || n == 0x205f || n == 0x3000

/-- `str.strip()` on a character list: drop whitespace from both ends. -/
def stripList (l : List Char) : List Char :=
  ((l.dropWhile isPySpace).reverse.dropWhile isPySpace).reverse

/-- Python `text.strip()`. -/
def pyStrip (s : String) : String := String.mk (stripList s.data)

/-- Python `s.startswith(pre)`. -/
def pyStartsWith (s pre : String) : Bool := pre.data.isPrefixOf s.data

/-- Python `ch in s` for a single character `ch` (used for `"："`). -/
def pyContainsChar (s : String) (c : Char) : Bool := s.data.contains c

/-- Python `s.split(ch, 1)[1]`: everything after the first occurrence of
`ch` (only used under a containment guard). -/
def afterFirst (s : String) (c : Char) : String :=
  String.mk ((s.data.dropWhile (fun x => x != c)).drop 1)

/-- The inline language heuristic of the handler:
`any('฀' <= char <= '๿' for char in text)` — Python compares the
characters, i.e. their code points. -/
def isThai (text : String) : Bool :=
  text.data.any (fun c => 0x0e00 ≤ c.toNat && c.toNat ≤ 0x0e7f)

/-- The two-way classification the spec calls `detect`: Thai when some
character is in the Thai block, otherwise the other configured language
(Chinese). -/
inductive Lang where
  | thai
  | other
deriving Repr, DecidableEq

/-- Language classification driving the handler's two branches. -/
def detectLang (text : String) : Lang :=
  if isThai text then Lang.thai else Lang.other

/-! ## Configuration

The four environment variables, read once at startup.  `""` models an
unset (or set-but-empty) variable: every use in the source is a Python
truthiness test, under which `None` and `""` behave identically. -/

structure Config where
  channelSecret : String
  channelAccessToken : String
  llmApiKey : String
  llmApiUrl : String
deriving Repr, DecidableEq

/-! ## Translation client (`translate_text`)

The single outbound completion call is modelled by an oracle describing
what the external world did: the request timed out
(`requests.exceptions.Timeout`), failed with another
`RequestException`, raised some other exception (e.g. a response body
`response.json()` could not parse, in `requests` versions where that error
is a plain `ValueError`), or returned an HTTP response.

For a response, `status` is `response.status_code` and `choices` models
`result.get("choices", [{}])[0].get("message", {}).get("content", "")`:
`none` when the `choices` key is absent (Python then reads content `""`
from the `[{}]` default), `some cs` when present, each element being the
choice's `message.content` string when both keys are present (`none` maps
to content `""`).  An explicit empty `choices` list makes `[0]` raise
`IndexError`, landing in the generic `except Exception` branch. -/

inductive LlmOutcome where
  | timeout
  | reqError
  | otherError
  | response (status : Nat) (choices : Option (List (Option String)))
deriving Repr, DecidableEq

/-- The content-extraction chain of line 105 of `api/index.py`:
`some` of the raw content when the indexing succeeds, `none` when `[0]`
raises. -/
def extractContent : Option (List (Option String)) → Option String
  | none => some ""
  | some [] => none
  | some (c :: _) => some (c.getD "")

/-- Fallback message: completion-API key unset. -/
def msgNoKey : String := "翻译服务：API Key未配置"

/-- Fallback message: completion-API URL unset. -/
def msgNoUrl : String := "翻译服务：API URL未配置"

/-- Fallback message: request timeout. -/
def msgTimeout : String := "翻译服务超时，请稍后再试"

/-- Fallback message: other `RequestException`. -/
def msgNet : String := "翻译服务暂时不可用"

/-- Fallback message: any other exception during the call or the response
processing. -/
def msgGeneric : String := "翻译失败，请稍后再试"

/-- Fallback message: empty translation after processing. -/
def msgEmpty : String := "翻译失败：结果为空"

/-- Fallback message for a non-200 HTTP status, which interpolates the
status code. -/
def msgStatus (status : Nat) : String :=
  "翻译服务错误 (状态码: " ++ toString status ++ ")"

/-- Embedding of `translate_text(text, target_lang)`.  The prompt built
from `text` and `target_lang` only feeds the external request and does not
influence the returned value, so it is not modelled.  The inner
`if "：" in translated else translated` of line 109 is redundant under the
guard of line 108 and collapses in the embedding. -/
def translate_text (cfg : Config) (text targetLang : String) (o : LlmOutcome) : String :=
  if cfg.llmApiKey = "" then msgNoKey
  else if cfg.llmApiUrl = "" then msgNoUrl
  else
    match o with
    | LlmOutcome.timeout => msgTimeout
    | LlmOutcome.reqError => msgNet
    | LlmOutcome.otherError => msgGeneric
    | LlmOutcome.response status choices =>
        if status ≠ 200 then msgStatus status
        else
          match extractContent choices with
          | none => msgGeneric
          | some raw =>
              let t0 := pyStrip raw
              let t1 := if pyContainsChar t0 '：' && pyStartsWith t0 text then
                          pyStrip (afterFirst t0 '：')
                        else t0
              if t1 = "" then msgEmpty else t1

/-! ## Reply dispatcher (`send_reply`) -/

/-- Outcome of the outbound reply POST: an exception (network error,
timeout — all handled by the single `except Exception`) or an HTTP
response with the given status code. -/
inductive ReplyOutcome where
  | exn
  | response (status : Nat)
deriving Repr, DecidableEq

/-- Embedding of `send_reply(reply_token, message)`: `False` when the
access token or the reply token is falsy, `True` exactly on HTTP 200,
`False` on any other status or any exception. -/
def send_reply (cfg : Config) (replyToken message : String) (o : ReplyOutcome) : Bool :=
  if cfg.channelAccessToken = "" then false
  else if replyToken = "" then false
  else
    match o with
    | ReplyOutcome.exn => false
    | ReplyOutcome.response status => status == 200

/-! ## Webhook orchestrator (`callback`)

JSON decoding is the standard library's `json.loads`; its result on the
request body is supplied as an oracle.  A `message` event whose processing
raises — the event itself is not a JSON object, its `message` value is not
an object, or the text is not a string, so that `.get`/`.strip()` raises
`AttributeError`/`TypeError` — is modelled by `RawEvent.malformed`; such a
raise is caught only by the outermost `except Exception`, which ends the
whole request with HTTP 500. -/

/-- The `message` sub-object of an event: `event.get('message', {})`
defaults an absent key to `{}`, i.e. to both fields `none`. -/
structure RawMessage where
  mtype : Option String
  text : Option String
deriving Repr, DecidableEq

/-- One element of the webhook `events` list. -/
inductive RawEvent where
  | malformed
  | event (etype : Option String) (message : Option RawMessage) (replyToken : Option String)
deriving Repr, DecidableEq

/-- Result of `json.loads(body)` plus the `events` extraction:
`malformed` models a `json.JSONDecodeError` (HTTP 400); `raises` models a
body that decodes but is not an object with an iterable `events` value, so
`.get`/iteration raises (HTTP 500); `ok events` is the normal case, with
an absent `events` key already defaulted to `[]`. -/
inductive BodyParse where
  | malformed
  | raises
  | ok (events : List RawEvent)
deriving Repr, DecidableEq

/-- Externally visible calls made while processing one event: the
invocation of the translation client and the invocation of the reply
dispatcher (with its success flag, which the handler only logs). -/
inductive Action where
  | translate (text targetLang : String)
  | reply (replyToken message : String) (delivered : Bool)
deriving Repr, DecidableEq

/-- Per-event body of the `for` loop (lines 236-291 of `api/index.py`):
`none` when processing the event raises, otherwise the list of external
calls the event produced. -/
def processEvent (cfg : Config) (tO : LlmOutcome) (rO : ReplyOutcome) :
    RawEvent → Option (List Action)
  | RawEvent.malformed => none
  | RawEvent.event etype message replyToken =>
      if etype = some "message" then
        let m := message.getD ⟨none, none⟩
        if m.mtype = some "text" then
          let text := pyStrip (m.text.getD "")
          let token := replyToken.getD ""
          if text = "" then some []
          else if token = "" then some []
          else if pyStartsWith text "🇹🇭" || pyStartsWith text "🇨🇳" then some []
          else
            let target := if isThai text then "zh" else "th"
            let translated := translate_text cfg text target tO
            let replyText := (if isThai text then "🇨🇳 " else "🇹🇭 ") ++ translated
            some [Action.translate text target,
                  Action.reply token replyText (send_reply cfg token replyText rO)]
        else some []
      else some []

/-- The event loop: events are processed sequentially; a raise inside the
loop aborts it and the whole request returns HTTP 500 (the calls already
made stand).  `i` numbers the events so each consumes its own oracles. -/
def runEvents (cfg : Config) (tO : Nat → LlmOutcome) (rO : Nat → ReplyOutcome) :
    List RawEvent → Nat → List Action → Nat × List Action
  | [], _, acc => (200, acc)
  | ev :: rest, i, acc =>
      match processEvent cfg (tO i) (rO i) ev with
      | none => (500, acc)
      | some as => runEvents cfg tO rO rest (i + 1) (acc ++ as)

/-- Decidable "no event of the payload raises" (each event checked against
its own oracles, numbering from `i`). -/
def eventsOk (cfg : Config) (tO : Nat → LlmOutcome) (rO : Nat → ReplyOutcome) :
    List RawEvent → Nat → Bool
  | [], _ => true
  | ev :: rest, i =>
      (processEvent cfg (tO i) (rO i) ev).isSome && eventsOk cfg tO rO rest (i + 1)

/-- The in-order concatenation of the per-event call traces. -/
def eventTraces (cfg : Config) (tO : Nat → LlmOutcome) (rO : Nat → ReplyOutcome) :
    List RawEvent → Nat → List Action
  | [], _ => []
  | ev :: rest, i =>
      (processEvent cfg (tO i) (rO i) ev).getD [] ++ eventTraces cfg tO rO rest (i + 1)

/-- Embedding of the `/callback` handler: HTTP status together with the
trace of external calls.  `signature` is the `X-Line-Signature` header
(`none` when absent; `request.headers.get` also yields a falsy value for a
present-but-empty header, and `if not signature` returns 400 for both). -/
def callback (cfg : Config) (signature : Option String) (body : String)
    (parse : BodyParse) (tO : Nat → LlmOutcome) (rO : Nat → ReplyOutcome) :
    Nat × List Action :=
  let sv := signature.getD ""
  if sv = "" then (400, [])
  else if verify_signature cfg.channelSecret body sv = false then (403, [])
  else
    match parse with
    | BodyParse.malformed => (400, [])
    | BodyParse.raises => (500, [])
    | BodyParse.ok events => runEvents cfg tO rO events 0 []

/-- The target-language code the handler computes on line 268 of
`api/index.py`. -/
def targetOf (text : String) : String := if isThai text then "zh" else "th"

/-- The flag prefix the handler chooses on lines 279-282 of `api/index.py`
(the flag of the language it translated INTO). -/
def flagOf (text : String) : String := if isThai text then "🇨🇳 " else "🇹🇭 "

/-- The full reply text built for a message whose stripped text is
`text`. -/
def replyTextOf (cfg : Config) (text : String) (tO : LlmOutcome) : String :=
  flagOf text ++ translate_text cfg text (targetOf text) tO

/-- A text-message event as delivered by the platform. -/
def textEvent (rawText : String) (tok : Option String) : RawEvent :=
  RawEvent.event (some "message") (some ⟨some "text", some rawText⟩) tok

/-! ## Helper lemmas -/

theorem string_eq_empty_iff (s : String) : s = "" ↔ s.data = [] := by
  cases s with
  | mk l => simp [String.ext_iff]

theorem isPrefixOf_iff_append (p : List Char) :
    ∀ l : List Char, p.isPrefixOf l = true ↔ ∃ t, l = p ++ t := by
  induction p with
  | nil => intro l; simp [List.isPrefixOf]
  | cons a as ih =>
      intro l
      cases l with
      | nil => simp [List.isPrefixOf]
      | cons b bs =>
          simp only [List.isPrefixOf, Bool.and_eq_true, beq_iff_eq, ih bs,
            List.cons_append, List.cons.injEq]
          constructor
          · rintro ⟨hab, t, ht⟩
            exact ⟨t, hab.symm, ht⟩
          · rintro ⟨t, hba, ht⟩
            exact ⟨hba.symm, t, ht⟩

theorem dropWhile_sat_nil (q : Char → Bool) :
    ∀ l : List Char, (∀ c ∈ l, q c = true) → l.dropWhile q = [] := by
  intro l hl
  induction l with
  | nil => rfl
  | cons a l ih =>
      simp only [List.dropWhile]
      rw [hl a (by simp)]
      exact ih fun c hc => hl c (by simp [hc])

theorem dropWhile_app_sat (q : Char → Bool) (xs ys : List Char)
    (h : ∀ c ∈ xs, q c = true) :
    (xs ++ ys).dropWhile q = ys.dropWhile q := by
  induction xs with
  | nil => simp
  | cons a xs ih =>
      simp only [List.cons_append, List.dropWhile]
      rw [h a (by simp)]
      exact ih fun c hc => h c (by simp [hc])

theorem dropWhile_app_unsat (q : Char → Bool) (xs ys : List Char)
    (h : ∀ c ∈ ys, q c = false) :
    (xs ++ ys).dropWhile q = xs.dropWhile q ++ ys := by
  induction xs with
  | nil =>
      simp only [List.nil_append, List.dropWhile_nil]
      cases ys with
      | nil => rfl
      | cons b bs =>
          simp only [List.dropWhile]
          rw [h b (by simp)]
  | cons a xs ih =>
      simp only [List.cons_append, List.dropWhile]
      cases ha : q a with
      | true => simpa [ha] using ih
      | false => simp [ha]

theorem stripList_sat (l : List Char) (h : ∀ c ∈ l, isPySpace c = true) :
    stripList l = [] := by
  unfold stripList
  rw [dropWhile_sat_nil _ l h]
  rfl

theorem stripList_app_sat (ws l : List Char) (h : ∀ c ∈ ws, isPySpace c = true) :
    stripList (ws ++ l) = stripList l := by
  unfold stripList
  rw [dropWhile_app_sat _ ws l h]

theorem stripList_flag (f r : List Char) (hne : f ≠ [])
    (hf : ∀ c ∈ f, isPySpace c = false) :
    stripList (f ++ r) = f ++ (r.reverse.dropWhile isPySpace).reverse := by
  unfold stripList
  have h1 : (f ++ r).dropWhile isPySpace = f ++ r := by
    cases f with
    | nil => exact absurd rfl hne
    | cons a as =>
        simp only [List.cons_append, List.dropWhile]
        rw [hf a (by simp)]
        rfl
  rw [h1, List.reverse_append,
      dropWhile_app_unsat _ r.reverse f.reverse (fun c hc => hf c (List.mem_reverse.mp hc)),
      List.reverse_append, List.reverse_reverse]

theorem pyStrip_of_startsWith (s f : String) (hsw : pyStartsWith s f = true)
    (hne : f ≠ "") (hf : ∀ c ∈ f.data, isPySpace c = false) :
    pyStartsWith (pyStrip s) f = true ∧ pyStrip s ≠ "" := by
  have hfd : f.data ≠ [] := fun h => hne ((string_eq_empty_iff f).mpr h)
  obtain ⟨t, ht⟩ := (isPrefixOf_iff_append f.data s.data).mp hsw
  have hs : stripList s.data = f.data ++ (t.reverse.dropWhile isPySpace).reverse := by
    rw [ht]; exact stripList_flag f.data t hfd hf
  constructor
  · unfold pyStartsWith pyStrip
    exact (isPrefixOf_iff_append f.data _).mpr
      ⟨(t.reverse.dropWhile isPySpace).reverse, by simp [hs]⟩
  · intro h
    have : stripList s.data = [] := by
      have := (string_eq_empty_iff (pyStrip s)).mp h
      simpa [pyStrip] using this
    rw [hs] at this
    exact hfd (List.append_eq_nil.mp this).1

theorem processEvent_guard (cfg : Config) (tO : LlmOutcome) (rO : ReplyOutcome)
    (rawText : String) (tok : Option String)
    (h : pyStrip rawText = "" ∨ tok.getD "" = "" ∨
         (pyStartsWith (pyStrip rawText) "🇹🇭" || pyStartsWith (pyStrip rawText) "🇨🇳") = true) :
    processEvent cfg tO rO (textEvent rawText tok) = some [] := by
  unfold processEvent textEvent
  rcases h with h | h | h
  · simp [h]
  · by_cases h0 : pyStrip rawText = "" <;> simp [h0, h]
  · by_cases h0 : pyStrip rawText = "" <;> by_cases h1 : tok.getD "" = "" <;>
      simp [h0, h1, h]

theorem processEvent_translating (cfg : Config) (tO : LlmOutcome) (rO : ReplyOutcome)
    (rawText tok : String)
    (h0 : pyStrip rawText ≠ "") (h1 : tok ≠ "")
    (h2 : (pyStartsWith (pyStrip rawText) "🇹🇭" || pyStartsWith (pyStrip rawText) "🇨🇳") = false) :
    processEvent cfg tO rO (textEvent rawText (some tok)) =
      some [Action.translate (pyStrip rawText) (targetOf (pyStrip rawText)),
            Action.reply tok (replyTextOf cfg (pyStrip rawText) tO)
              (send_reply cfg tok (replyTextOf cfg (pyStrip rawText) tO) rO)] := by
  unfold processEvent textEvent
  simp [h0, h1, h2, targetOf, flagOf, replyTextOf]

theorem runEvents_all_ok (cfg : Config) (tO : Nat → LlmOutcome) (rO : Nat → ReplyOutcome) :
    ∀ (evs : List RawEvent) (i : Nat) (acc : List Action),
      eventsOk cfg tO rO evs i = true →
      runEvents cfg tO rO evs i acc = (200, acc ++ eventTraces cfg tO rO evs i) := by
  intro evs
  induction evs with
  | nil => intro i acc _; simp [runEvents, eventTraces]
  | cons ev rest ih =>
      intro i acc hok
      simp only [eventsOk, Bool.and_eq_true, Option.isSome_iff_exists] at hok
      obtain ⟨⟨as, has⟩, hrest⟩ := hok
      simp only [runEvents, eventTraces, has, Option.getD_some]
      rw [ih (i + 1) (acc ++ as) hrest, List.append_assoc]

theorem verify_true_nonempty (secret body sig : String)
    (h : verify_signature secret body sig = true) : sig ≠ "" := by
  intro hs
  rw [hs] at h
  unfold verify_signature at h
  by_cases h0 : secret = "" <;> simp [h0] at h

theorem callback_verified_ok (cfg : Config) (s body : String)
    (events : List RawEvent) (tO : Nat → LlmOutcome) (rO : Nat → ReplyOutcome)
    (hv : verify_signature cfg.channelSecret body s = true) :
    callback cfg (some s) body (BodyParse.ok events) tO rO =
      runEvents cfg tO rO events 0 [] := by
  have hs : s ≠ "" := verify_true_nonempty cfg.channelSecret body s hv
  unfold callback
  simp [hs, hv]

theorem pyStrip_app_sat (ws s : String) (h : ∀ c ∈ ws.data, isPySpace c = true) :
    pyStrip (ws ++ s) = pyStrip s := by
  unfold pyStrip
  rw [String.data_append, stripList_app_sat ws.data s.data h]

theorem b64Encode_ne_nil (l : List Nat) (h : l ≠ []) : b64Encode l ≠ [] := by
  match l with
  | [] => exact absurd rfl h
  | [a] => simp [b64Encode]
  | [a, b] => simp [b64Encode]
  | a :: b :: c :: r => simp [b64Encode]

theorem sha256_ne_nil (m : List Nat) : sha256 m ≠ [] := by
  simp [sha256, digestBytes, wordBytes]

theorem hmacSha256_ne_nil (key msg : List Nat) : hmacSha256 key msg ≠ [] := by
  simp only [hmacSha256]
  exact sha256_ne_nil _

theorem signB64_ne_empty (secret body : String) : signB64 secret body ≠ "" := by
  intro h
  have hd : b64Encode (hmacSha256 (utf8 secret) (utf8 body)) = [] :=
    (string_eq_empty_iff _).mp h
  exact b64Encode_ne_nil _ (hmacSha256_ne_nil _ _) hd

/-! ## The claims -/

/-- Claim C1 (amended): `verify_signature` returns true exactly when the
configured channel secret is set (non-falsy) and the supplied signature is
the base64-encoded HMAC-SHA256 tag of the body under that secret.  In
particular verification of the correct tag succeeds, an unset secret makes
it return false, and a signature produced with a different secret is
rejected precisely when the two secrets yield different tags — which
distinct secrets need not do (see the counterexample). -/
theorem C1_verify_signature_amended (secret body sig : String) :
    verify_signature secret body sig = true ↔
      secret ≠ "" ∧ sig = signB64 secret body := by
  unfold verify_signature
  by_cases hs : secret = ""
  · simp [hs]
  · by_cases hg : sig = ""
    · simp [hs, hg]
      exact fun h => signB64_ne_empty secret body h.symm
    · simp [hs, hg]

/-- Claim C1, counterexample to the frozen statement: the secrets `"a"`
and `"a\x00"` are distinct, yet the signature produced with secret `"a"`
is accepted by `verify_signature` configured with secret `"a\x00"` —
HMAC zero-extends keys shorter than the 64-byte block, so both secrets
key the MAC identically.  The claim's "verifying against a signature
produced with any different secret S' returns false" is therefore false. -/
theorem C1_counterexample :
    ("a\x00" : String) ≠ "a" ∧
    verify_signature "a\x00" "body" (signB64 "a" "body") = true := by
  constructor
  · decide
  · decide

/-- Claim C4: the language detector classifies a text as Thai exactly when
some character lies in the inclusive code-point range U+0E00-U+0E7F, and
as the other language exactly when no character does. -/
theorem C4_detect_thai_iff (T : String) :
    (detectLang T = Lang.thai ↔ ∃ c ∈ T.data, 0x0e00 ≤ c.toNat ∧ c.toNat ≤ 0x0e7f) ∧
    (detectLang T = Lang.other ↔ ¬ ∃ c ∈ T.data, 0x0e00 ≤ c.toNat ∧ c.toNat ≤ 0x0e7f) := by
  have key : isThai T = true ↔ ∃ c ∈ T.data, 0x0e00 ≤ c.toNat ∧ c.toNat ≤ 0x0e7f := by
    simp [isThai, List.any_eq_true]
  cases h : isThai T with
  | true => simp [detectLang, h, key.mp h]
  | false =>
      have hne : ¬ ∃ c ∈ T.data, 0x0e00 ≤ c.toNat ∧ c.toNat ≤ 0x0e7f := by
        intro he
        rw [key.mpr he] at h
        cases h
      simp [detectLang, h, hne]

/-- Claim C8: `send_reply` returns true exactly when the outbound POST
happens (access token and reply token are non-falsy) and completes with
HTTP status 200; every other status and every exception yield false, and
the embedding is a total function (never raises). -/
theorem C8_send_reply_iff (cfg : Config) (replyToken message : String) (o : ReplyOutcome) :
    send_reply cfg replyToken message o = true ↔
      cfg.channelAccessToken ≠ "" ∧ replyToken ≠ "" ∧ o = ReplyOutcome.response 200 := by
  unfold send_reply
  by_cases h1 : cfg.channelAccessToken = "" <;> by_cases h2 : replyToken = "" <;>
    cases o <;> simp [h1, h2]

/-- Claim C7 (amended): `translate_text` is total (never raises) and
returns, per failure class, a distinct fixed fallback string: a
configuration message when the key or the URL is unset, and — once both
are set — a timeout message, a network-error message, a generic message
for any other exception (including an unparsable response body and an
`IndexError` from an explicit empty `choices` list), a status message
carrying the code for a non-200 response, and an empty-result message.
On HTTP 200 with extractable content it returns the content trimmed,
except that content containing `：` and starting with the input text is
cut after the first `：` and re-trimmed.  All fixed fallback strings are
pairwise distinct, Chinese (none contains a Thai-block character, so none
is in the Thai target conversational language), and distinct from every
status message. -/
theorem C7_translate_amended (cfg : Config) (text lang : String) :
    (∀ o, cfg.llmApiKey = "" → translate_text cfg text lang o = msgNoKey) ∧
    (∀ o, cfg.llmApiKey ≠ "" → cfg.llmApiUrl = "" → translate_text cfg text lang o = msgNoUrl) ∧
    (cfg.llmApiKey ≠ "" → cfg.llmApiUrl ≠ "" →
      translate_text cfg text lang LlmOutcome.timeout = msgTimeout ∧
      translate_text cfg text lang LlmOutcome.reqError = msgNet ∧
      translate_text cfg text lang LlmOutcome.otherError = msgGeneric ∧
      (∀ status choices, status ≠ 200 →
        translate_text cfg text lang (LlmOutcome.response status choices) = msgStatus status) ∧
      (∀ choices, extractContent choices = none →
        translate_text cfg text lang (LlmOutcome.response 200 choices) = msgGeneric) ∧
      (∀ choices raw, extractContent choices = some raw →
        translate_text cfg text lang (LlmOutcome.response 200 choices) =
          (let t0 := pyStrip raw
           let t1 := if pyContainsChar t0 '：' && pyStartsWith t0 text then
                       pyStrip (afterFirst t0 '：')
                     else t0
           if t1 = "" then msgEmpty else t1))) ∧
    (msgNoKey ≠ msgNoUrl ∧ msgNoKey ≠ msgTimeout ∧ msgNoKey ≠ msgNet ∧
     msgNoKey ≠ msgGeneric ∧ msgNoKey ≠ msgEmpty ∧ msgNoUrl ≠ msgTimeout ∧
     msgNoUrl ≠ msgNet ∧ msgNoUrl ≠ msgGeneric ∧ msgNoUrl ≠ msgEmpty ∧
     msgTimeout ≠ msgNet ∧ msgTimeout ≠ msgGeneric ∧ msgTimeout ≠ msgEmpty ∧
     msgNet ≠ msgGeneric ∧ msgNet ≠ msgEmpty ∧ msgGeneric ≠ msgEmpty) ∧
    (∀ status, pyStartsWith (msgStatus status) "翻译服务错误" = true) ∧
    (pyStartsWith msgNoKey "翻译服务错误" = false ∧
     pyStartsWith msgNoUrl "翻译服务错误" = false ∧
     pyStartsWith msgTimeout "翻译服务错误" = false ∧
     pyStartsWith msgNet "翻译服务错误" = false ∧
     pyStartsWith msgGeneric "翻译服务错误" = false ∧
     pyStartsWith msgEmpty "翻译服务错误" = false) ∧
    (isThai msgNoKey = false ∧ isThai msgNoUrl = false ∧ isThai msgTimeout = false ∧
     isThai msgNet = false ∧ isThai msgGeneric = false ∧ isThai msgEmpty = false) := by
  refine ⟨?_, ?_, ?_, by decide, ?_, by decide, by decide⟩
  · intro o h
    simp [translate_text, h]
  · intro o h1 h2
    simp [translate_text, h1, h2]
  · intro h1 h2
    refine ⟨by simp [translate_text, h1, h2], by simp [translate_text, h1, h2],
            by simp [translate_text, h1, h2], ?_, ?_, ?_⟩
    · intro status choices hst
      simp [translate_text, h1, h2, hst]
    · intro choices hc
      simp [translate_text, h1, h2, hc]
    · intro choices raw hc
      simp [translate_text, h1, h2, hc]
  · intro status
    unfold pyStartsWith msgStatus
    apply (isPrefixOf_iff_append _ _).mpr
    refine ⟨(" (状态码: " ++ toString status ++ ")").data, ?_⟩
    have hsplit : ("翻译服务错误 (状态码: " : String) = "翻译服务错误" ++ " (状态码: " := by decide
    rw [String.data_append, hsplit]
    simp [String.data_append]

/-- Claim C7, counterexample to the frozen statement: on HTTP success with
content `"你好：超"` for input text `"你好"`, the returned string is
`"超"`, not the whitespace-trimmed content — the colon heuristic of lines
107-109 cuts it; and the timeout fallback for target language Thai
contains no Thai-block character, so it is not "in the target
conversational language". -/
theorem C7_counterexample :
    translate_text ⟨"s", "t", "k", "u"⟩ "你好" "th"
        (LlmOutcome.response 200 (some [some "你好：超"])) = "超" ∧
    ("超" : String) ≠ pyStrip "你好：超" ∧
    isThai (translate_text ⟨"s", "t", "k", "u"⟩ "你好" "th" LlmOutcome.timeout) = false := by
  decide

/-- Claim C7, witness: the amended characterisation applied at a concrete
configuration, input and outcome. -/
theorem C7_witness :
    translate_text ⟨"s", "t", "k", "u"⟩ "x" "th" LlmOutcome.timeout = msgTimeout ∧
    translate_text ⟨"s", "t", "", "u"⟩ "x" "th" LlmOutcome.timeout = msgNoKey := by
  constructor
  · exact ((C7_translate_amended ⟨"s", "t", "k", "u"⟩ "x" "th").2.2.1
      (by decide) (by decide)).1
  · exact (C7_translate_amended ⟨"s", "t", "", "u"⟩ "x" "th").1
      LlmOutcome.timeout (by decide)

/-- Claim C3: a request with a missing (or falsy) `X-Line-Signature`
header is rejected with HTTP 400, and one whose signature fails
verification is rejected with HTTP 403, in both cases with an empty call
trace and independently of the body-parse outcome — no event parsing,
translation or reply happens. -/
theorem C3_reject_before_events (cfg : Config) (body : String) (parse : BodyParse)
    (tO : Nat → LlmOutcome) (rO : Nat → ReplyOutcome) :
    callback cfg none body parse tO rO = (400, []) ∧
    callback cfg (some "") body parse tO rO = (400, []) ∧
    (∀ s, s ≠ "" → verify_signature cfg.channelSecret body s = false →
      callback cfg (some s) body parse tO rO = (403, [])) := by
  refine ⟨by simp [callback], by simp [callback], ?_⟩
  intro s hs hv
  unfold callback
  simp [hs, hv]

/-- Claim C3, witness: a concrete request with no header is rejected 400,
and one with a wrong signature (here: unverifiable because the secret is
unset) is rejected 403, with empty traces. -/
theorem C3_witness :
    callback ⟨"", "t", "k", "u"⟩ none "body" (BodyParse.ok [])
        (fun _ => LlmOutcome.timeout) (fun _ => ReplyOutcome.exn) = (400, []) ∧
    callback ⟨"", "t", "k", "u"⟩ (some "x") "body" (BodyParse.ok [])
        (fun _ => LlmOutcome.timeout) (fun _ => ReplyOutcome.exn) = (403, []) := by
  constructor
  · exact (C3_reject_before_events ⟨"", "t", "k", "u"⟩ "body" (BodyParse.ok [])
      (fun _ => LlmOutcome.timeout) (fun _ => ReplyOutcome.exn)).1
  · exact (C3_reject_before_events ⟨"", "t", "k", "u"⟩ "body" (BodyParse.ok [])
      (fun _ => LlmOutcome.timeout) (fun _ => ReplyOutcome.exn)).2.2 "x"
      (by decide) (by decide)

/-- Claim C2: a text-message event whose text begins with 🇹🇭 or 🇨🇳 is
skipped — it produces no translation call and no reply call, whatever
follows the prefix — and a verified request whose events all process
without raising still completes with HTTP 200. -/
theorem C2_loop_guard :
    (∀ (cfg : Config) (tO : LlmOutcome) (rO : ReplyOutcome) (rawText : String)
       (tok : Option String),
       (pyStartsWith rawText "🇹🇭" || pyStartsWith rawText "🇨🇳") = true →
       processEvent cfg tO rO (textEvent rawText tok) = some []) ∧
    (∀ (cfg : Config) (s body : String) (events : List RawEvent)
       (tO : Nat → LlmOutcome) (rO : Nat → ReplyOutcome),
       verify_signature cfg.channelSecret body s = true →
       eventsOk cfg tO rO events 0 = true →
       (callback cfg (some s) body (BodyParse.ok events) tO rO).1 = 200) := by
  constructor
  · intro cfg tO rO rawText tok hsw
    apply processEvent_guard
    right; right
    rcases (Bool.or_eq_true _ _).mp hsw with h | h
    · have hp := pyStrip_of_startsWith rawText "🇹🇭" h (by decide) (by decide)
      simp [hp.1]
    · have hp := pyStrip_of_startsWith rawText "🇨🇳" h (by decide) (by decide)
      simp [hp.1]
  · intro cfg s body events tO rO hv hok
    rw [callback_verified_ok cfg s body events tO rO hv,
        runEvents_all_ok cfg tO rO events 0 [] hok]

/-- Claim C2, witness: the guard applied to the concrete inbound text
`"🇹🇭 สวัสดี"`, and a verified single-event request carrying it returning
HTTP 200. -/
theorem C2_witness :
    processEvent ⟨"s", "t", "k", "u"⟩ LlmOutcome.timeout ReplyOutcome.exn
        (textEvent "🇹🇭 สวัสดี" (some "tok")) = some [] ∧
    (callback ⟨"s", "t", "k", "u"⟩ (some (signB64 "s" "b")) "b"
        (BodyParse.ok [textEvent "🇹🇭 สวัสดี" (some "tok")])
        (fun _ => LlmOutcome.timeout) (fun _ => ReplyOutcome.exn)).1 = 200 := by
  constructor
  · exact C2_loop_guard.1 ⟨"s", "t", "k", "u"⟩ LlmOutcome.timeout ReplyOutcome.exn
      "🇹🇭 สวัสดี" (some "tok") (by decide)
  · exact C2_loop_guard.2 ⟨"s", "t", "k", "u"⟩ (signB64 "s" "b") "b"
      [textEvent "🇹🇭 สวัสดี" (some "tok")]
      (fun _ => LlmOutcome.timeout) (fun _ => ReplyOutcome.exn) (by decide) (by decide)

/-- Claim C5 (amended): an event that reaches the translating state is
replied with the translated text prefixed by the flag of the TARGET
language of the translation: a message detected as Thai gets the 🇨🇳
prefix, any other message the 🇹🇭 prefix. -/
theorem C5_flag_amended (cfg : Config) (tO : LlmOutcome) (rO : ReplyOutcome)
    (rawText tok : String)
    (h0 : pyStrip rawText ≠ "") (h1 : tok ≠ "")
    (h2 : (pyStartsWith (pyStrip rawText) "🇹🇭" ||
           pyStartsWith (pyStrip rawText) "🇨🇳") = false) :
    ∃ translated,
      processEvent cfg tO rO (textEvent rawText (some tok)) =
        some [Action.translate (pyStrip rawText) (targetOf (pyStrip rawText)),
              Action.reply tok
                ((if isThai (pyStrip rawText) then "🇨🇳 " else "🇹🇭 ") ++ translated)
                (send_reply cfg tok
                  ((if isThai (pyStrip rawText) then "🇨🇳 " else "🇹🇭 ") ++ translated) rO)] := by
  refine ⟨translate_text cfg (pyStrip rawText) (targetOf (pyStrip rawText)) tO, ?_⟩
  have hpe := processEvent_translating cfg tO rO rawText tok h0 h1 h2
  simpa [replyTextOf, flagOf] using hpe

/-- Claim C5, counterexample to the frozen statement: a message detected
as Thai is replied with text prefixed `"🇨🇳 "` — the flag of the target
language — not the Thai flag of the detected source language that the
claim requires. -/
theorem C5_counterexample :
    processEvent ⟨"s", "t", "k", "u"⟩ (LlmOutcome.response 200 (some [some "你好"]))
        (ReplyOutcome.response 200) (textEvent "สวัสดี" (some "tok")) =
      some [Action.translate "สวัสดี" "zh",
            Action.reply "tok" "🇨🇳 你好" true] ∧
    isThai "สวัสดี" = true ∧
    pyStartsWith "🇨🇳 你好" "🇹🇭" = false := by
  decide

/-- Claim C5, witness: the amended statement applied to a concrete Thai
message. -/
theorem C5_witness :
    ∃ translated,
      processEvent ⟨"s", "t", "k", "u"⟩ (LlmOutcome.response 200 (some [some "你好"]))
          (ReplyOutcome.response 200) (textEvent "สวัสดี" (some "tok")) =
        some [Action.translate (pyStrip "สวัสดี") (targetOf (pyStrip "สวัสดี")),
              Action.reply "tok"
                ((if isThai (pyStrip "สวัสดี") then "🇨🇳 " else "🇹🇭 ") ++ translated)
                (send_reply ⟨"s", "t", "k", "u"⟩ "tok"
                  ((if isThai (pyStrip "สวัสดี") then "🇨🇳 " else "🇹🇭 ") ++ translated)
                  (ReplyOutcome.response 200))] :=
  C5_flag_amended ⟨"s", "t", "k", "u"⟩ (LlmOutcome.response 200 (some [some "你好"]))
    (ReplyOutcome.response 200) "สวัสดี" "tok" (by decide) (by decide) (by decide)

/-- Claim C6 (amended): under a valid signature, a text-message event
whose text is non-empty after whitespace stripping, contains no
Thai-block character and does not begin with the 🇹🇭/🇨🇳 loop-guard
prefixes is translated with target language `"th"` and replied with text
prefixed `"🇹🇭 "`, and the request returns HTTP 200.  (The frozen claim
omitted the loop-guard and stripping conditions; the counterexample
forces them.) -/
theorem C6_chinese_amended (cfg : Config) (s body text tok : String)
    (tO : Nat → LlmOutcome) (rO : Nat → ReplyOutcome)
    (hv : verify_signature cfg.channelSecret body s = true)
    (h0 : pyStrip text ≠ "") (h1 : tok ≠ "")
    (h2 : (pyStartsWith (pyStrip text) "🇹🇭" || pyStartsWith (pyStrip text) "🇨🇳") = false)
    (h3 : isThai (pyStrip text) = false) :
    callback cfg (some s) body (BodyParse.ok [textEvent text (some tok)]) tO rO =
      (200, [Action.translate (pyStrip text) "th",
             Action.reply tok ("🇹🇭 " ++ translate_text cfg (pyStrip text) "th" (tO 0))
               (send_reply cfg tok
                 ("🇹🇭 " ++ translate_text cfg (pyStrip text) "th" (tO 0)) (rO 0))]) := by
  rw [callback_verified_ok cfg s body _ tO rO hv]
  have hpe := processEvent_translating cfg (tO 0) (rO 0) text tok h0 h1 h2
  simp only [targetOf, flagOf, replyTextOf, h3, if_false, Bool.false_eq_true] at hpe
  simp [runEvents, hpe]

/-- Claim C6, counterexample to the frozen statement: the inbound text
`"🇨🇳你好"` is non-empty Chinese text containing no Thai-block character,
arrives with a non-empty reply token under a valid signature, yet the
loop guard skips it — no translation call and no reply are made, contrary
to the claim's promise of a reply prefixed `"🇹🇭 "`. -/
theorem C6_counterexample :
    isThai "🇨🇳你好" = false ∧
    ("🇨🇳你好" : String) ≠ "" ∧
    callback ⟨"cs", "t", "k", "u"⟩
        (some (signB64 "cs"
          "\x7b\"events\":[\x7b\"type\":\"message\",\"message\":\x7b\"type\":\"text\",\"text\":\"🇨🇳你好\"\x7d,\"replyToken\":\"tok1\"\x7d]\x7d"))
        "\x7b\"events\":[\x7b\"type\":\"message\",\"message\":\x7b\"type\":\"text\",\"text\":\"🇨🇳你好\"\x7d,\"replyToken\":\"tok1\"\x7d]\x7d"
        (BodyParse.ok [textEvent "🇨🇳你好" (some "tok1")])
        (fun _ => LlmOutcome.response 200 (some [some "สวัสดี"]))
        (fun _ => ReplyOutcome.response 200) = (200, []) := by
  refine ⟨by decide, by decide, ?_⟩
  decide

/-- Claim C6, witness: the amended statement applied to the concrete
Chinese message `"你好"` with reply token `"tok1"` under a valid
signature. -/
theorem C6_witness :
    callback ⟨"cs", "t", "k", "u"⟩
        (some (signB64 "cs"
          "\x7b\"events\":[\x7b\"type\":\"message\",\"message\":\x7b\"type\":\"text\",\"text\":\"你好\"\x7d,\"replyToken\":\"tok1\"\x7d]\x7d"))
        "\x7b\"events\":[\x7b\"type\":\"message\",\"message\":\x7b\"type\":\"text\",\"text\":\"你好\"\x7d,\"replyToken\":\"tok1\"\x7d]\x7d"
        (BodyParse.ok [textEvent "你好" (some "tok1")])
        (fun _ => LlmOutcome.response 200 (some [some "สวัสดี"]))
        (fun _ => ReplyOutcome.response 200) =
      (200, [Action.translate (pyStrip "你好") "th",
             Action.reply "tok1"
               ("🇹🇭 " ++ translate_text ⟨"cs", "t", "k", "u"⟩ (pyStrip "你好") "th"
                 (LlmOutcome.response 200 (some [some "สวัสดี"])))
               (send_reply ⟨"cs", "t", "k", "u"⟩ "tok1"
                 ("🇹🇭 " ++ translate_text ⟨"cs", "t", "k", "u"⟩ (pyStrip "你好") "th"
                   (LlmOutcome.response 200 (some [some "สวัสดี"])))
                 (ReplyOutcome.response 200))]) :=
  C6_chinese_amended ⟨"cs", "t", "k", "u"⟩ _ _ "你好" "tok1" _ _
    (by decide) (by decide) (by decide) (by decide) (by decide)

/-- Claim C9 (amended): the events of a verified payload are processed
sequentially in payload order, each contributing its calls to the trace
in order, and a translation failure or reply failure of one event (any
oracle outcome) does not abort the following events; but an event whose
processing raises (a malformed event) aborts the whole request with HTTP
500 before the following events run — the frozen claim wrongly extended
the no-abort guarantee to malformed events. -/
theorem C9_sequential_amended (cfg : Config) (s body : String) (events : List RawEvent)
    (tO : Nat → LlmOutcome) (rO : Nat → ReplyOutcome)
    (hv : verify_signature cfg.channelSecret body s = true)
    (hok : eventsOk cfg tO rO events 0 = true) :
    callback cfg (some s) body (BodyParse.ok events) tO rO =
      (200, eventTraces cfg tO rO events 0) := by
  rw [callback_verified_ok cfg s body events tO rO hv,
      runEvents_all_ok cfg tO rO events 0 [] hok]
  simp

/-- Claim C9, counterexample to the frozen statement: a verified payload
whose first event is malformed (not a JSON object, so `.get` raises) ends
the request with HTTP 500 and an empty trace — the well-formed Chinese
text-message event after it is never processed, contradicting "one
event's failure does not abort processing of the subsequent events". -/
theorem C9_counterexample :
    callback ⟨"cs", "t", "k", "u"⟩
        (some (signB64 "cs"
          "\x7b\"events\":[1,\x7b\"type\":\"message\",\"message\":\x7b\"type\":\"text\",\"text\":\"你好\"\x7d,\"replyToken\":\"tok\"\x7d]\x7d"))
        "\x7b\"events\":[1,\x7b\"type\":\"message\",\"message\":\x7b\"type\":\"text\",\"text\":\"你好\"\x7d,\"replyToken\":\"tok\"\x7d]\x7d"
        (BodyParse.ok [RawEvent.malformed, textEvent "你好" (some "tok")])
        (fun _ => LlmOutcome.response 200 (some [some "สวัสดี"]))
        (fun _ => ReplyOutcome.response 200) = (500, []) := by
  decide

/-- Claim C9, witness: a verified two-event payload in which the first
translation times out and the second reply raises still processes both
events in order and returns HTTP 200 with both traces. -/
theorem C9_witness :
    callback ⟨"s", "t", "k", "u"⟩ (some (signB64 "s" "b")) "b"
        (BodyParse.ok [textEvent "你好" (some "t1"), textEvent "好的" (some "t2")])
        (fun _ => LlmOutcome.timeout) (fun _ => ReplyOutcome.exn) =
      (200, eventTraces ⟨"s", "t", "k", "u"⟩
        (fun _ => LlmOutcome.timeout) (fun _ => ReplyOutcome.exn)
        [textEvent "你好" (some "t1"), textEvent "好的" (some "t2")] 0) :=
  C9_sequential_amended ⟨"s", "t", "k", "u"⟩ (signB64 "s" "b") "b"
    [textEvent "你好" (some "t1"), textEvent "好的" (some "t2")]
    (fun _ => LlmOutcome.timeout) (fun _ => ReplyOutcome.exn) (by decide) (by decide)

/-- Claim C10: the handler strips leading and trailing whitespace from the
inbound text before every check: a whitespace-only message is skipped as
empty; a message of whitespace followed by 🇹🇭 or 🇨🇳 is skipped by the
loop guard; and a message that reaches translation is translated — and
its language detected — on the stripped text. -/
theorem C10_strip_first :
    (∀ (cfg : Config) (tO : LlmOutcome) (rO : ReplyOutcome) (text : String)
       (tok : Option String),
       (∀ c ∈ text.data, isPySpace c = true) →
       processEvent cfg tO rO (textEvent text tok) = some []) ∧
    (∀ (cfg : Config) (tO : LlmOutcome) (rO : ReplyOutcome) (ws rest : String)
       (tok : Option String),
       (∀ c ∈ ws.data, isPySpace c = true) →
       processEvent cfg tO rO (textEvent (ws ++ "🇹🇭" ++ rest) tok) = some [] ∧
       processEvent cfg tO rO (textEvent (ws ++ "🇨🇳" ++ rest) tok) = some []) ∧
    (∀ (cfg : Config) (tO : LlmOutcome) (rO : ReplyOutcome) (text tok : String),
       pyStrip text ≠ "" → tok ≠ "" →
       (pyStartsWith (pyStrip text) "🇹🇭" || pyStartsWith (pyStrip text) "🇨🇳") = false →
       ∃ replyMsg delivered,
         processEvent cfg tO rO (textEvent text (some tok)) =
           some [Action.translate (pyStrip text) (targetOf (pyStrip text)),
                 Action.reply tok replyMsg delivered]) := by
  refine ⟨?_, ?_, ?_⟩
  · intro cfg tO rO text tok h
    apply processEvent_guard
    left
    unfold pyStrip
    rw [stripList_sat text.data h]
  · intro cfg tO rO ws rest tok h
    have key : ∀ f : String, f ≠ "" → (∀ c ∈ f.data, isPySpace c = false) →
        pyStartsWith (pyStrip (ws ++ f ++ rest)) f = true := by
      intro f hfne hfns
      have hstrip : pyStrip (ws ++ f ++ rest) = pyStrip (f ++ rest) := by
        rw [String.append_assoc]
        exact pyStrip_app_sat ws (f ++ rest) h
      have hsw : pyStartsWith (f ++ rest) f = true :=
        (isPrefixOf_iff_append _ _).mpr ⟨rest.data, String.data_append f rest⟩
      rw [hstrip]
      exact (pyStrip_of_startsWith (f ++ rest) f hsw hfne hfns).1
    constructor
    · apply processEvent_guard
      right; right
      simp [key "🇹🇭" (by decide) (by decide)]
    · apply processEvent_guard
      right; right
      simp [key "🇨🇳" (by decide) (by decide)]
  · intro cfg tO rO text tok h0 h1 h2
    exact ⟨replyTextOf cfg (pyStrip text) tO,
           send_reply cfg tok (replyTextOf cfg (pyStrip text) tO) rO,
           processEvent_translating cfg tO rO text tok h0 h1 h2⟩

/-- Claim C10, witness: a whitespace-only message is skipped, a message of
a space followed by 🇹🇭 and more text is skipped, and the message
`" 你好 "` is translated on its stripped text `"你好"`. -/
theorem C10_witness :
    processEvent ⟨"s", "t", "k", "u"⟩ LlmOutcome.timeout ReplyOutcome.exn
        (textEvent "  " (some "tok")) = some [] ∧
    processEvent ⟨"s", "t", "k", "u"⟩ LlmOutcome.timeout ReplyOutcome.exn
        (textEvent (" " ++ "🇹🇭" ++ " สวัสดี") (some "tok")) = some [] ∧
    (∃ replyMsg delivered,
      processEvent ⟨"s", "t", "k", "u"⟩ LlmOutcome.timeout ReplyOutcome.exn
          (textEvent " 你好 " (some "tok")) =
        some [Action.translate (pyStrip " 你好 ") (targetOf (pyStrip " 你好 ")),
              Action.reply "tok" replyMsg delivered]) := by
  refine ⟨?_, ?_, ?_⟩
  · exact C10_strip_first.1 ⟨"s", "t", "k", "u"⟩ LlmOutcome.timeout ReplyOutcome.exn
      "  " (some "tok") (by decide)
  · exact (C10_strip_first.2.1 ⟨"s", "t", "k", "u"⟩ LlmOutcome.timeout ReplyOutcome.exn
      " " " สวัสดี" (some "tok") (by decide)).1
  · exact C10_strip_first.2.2 ⟨"s", "t", "k", "u"⟩ LlmOutcome.timeout ReplyOutcome.exn
      " 你好 " "tok" (by decide) (by decide) (by decide)

end LineBot
